import Mathlib

/-!
# Verification of the Zyrex trampoline engine core (`src/Trampoline.c`)

A shallow embedding of the trampoline engine from `src/src/Trampoline.c` and
`src/include/Zyrex/Internal/Trampoline.h`, together with theorems settling the
frozen claims about it.

Modelling conventions:
* Machine integers are `Nat`/`Int` with explicit `% 2^w` where wrap-around
  matters.  Pointer-sized values (`ZyanUPointer`/`ZyanUSize`) are `Nat`;
  `ZyanIPointer` arithmetic is `Int`.
* The external instruction decoder (Zydis) is an out-of-scope collaborator.
  It is modelled as a function from the readable byte suffix to an optional
  decoded-instruction record carrying exactly the fields the engine inspects.
* Byte buffers are `List Nat`.  Byte stores of the trampoline builder are
  recorded as a chronological write log (index/value pairs) and applied to a
  flat byte region covering the chunk's `trampoline` array together with the
  translation map that directly follows it in the struct, so a store running
  past the array corrupts the map fields exactly as in C.
* Fallible C functions returning `ZyanStatus` are modelled as functions
  returning a status value (paired with the mutated state where relevant).
  Loops whose progress depends on decoder-reported instruction lengths take a
  fuel argument; running out of fuel yields the artificial status
  `fuelExhausted`, which models non-termination of the C loop and can only
  occur if the decoder reports a zero-length instruction.
-/

/-- Status vocabulary of the engine (subset of the `ZyanStatus` codes used in
`Trampoline.c`, plus `decodeError` for an error propagated from the external
decoder via `ZYAN_CHECK` and the artificial `fuelExhausted`, see above). -/
inductive ZyanStatus where
  | success
  | invalidArgument
  | invalidOperation
  | outOfRange
  | badSystemcall
  | failed
  | decodeError
  | fuelExhausted
deriving DecidableEq, Repr

/-- Modelled from the spec: `ZYREX_SIZEOF_RELATIVE_JUMP` is defined in
`Zyrex/Internal/Utils.h`, which is not part of the sources; the spec
(section 4.1) fixes it to 5 (`E9 disp32`). -/
def ZYREX_SIZEOF_RELATIVE_JUMP : Nat := 5

/-- Modelled from the spec: `ZYREX_SIZEOF_ABSOLUTE_JUMP` is defined in
`Zyrex/Internal/Utils.h`, which is not part of the sources; the spec
(section 4.1) fixes it to 6 (`FF 25 disp32`). -/
def ZYREX_SIZEOF_ABSOLUTE_JUMP : Nat := 6

/-- Modelled from the spec: `ZYREX_RANGEOF_RELATIVE_JUMP` is defined in
`Zyrex/Internal/Utils.h`, which is not part of the sources; the spec
(section 4.1) fixes it to `2^31 - 1`. -/
def ZYREX_RANGEOF_RELATIVE_JUMP : Nat := 2 ^ 31 - 1

/-- `ZYDIS_MAX_INSTRUCTION_LENGTH` from the external Zydis decoder
(an x86 instruction is at most 15 bytes long). -/
def ZYDIS_MAX_INSTRUCTION_LENGTH : Nat := 15

/-- `ZYREX_TRAMPOLINE_MAX_CODE_SIZE` (Trampoline.c lines 47-48):
`ZYDIS_MAX_INSTRUCTION_LENGTH + ZYREX_SIZEOF_RELATIVE_JUMP - 1 = 19`. -/
def ZYREX_TRAMPOLINE_MAX_CODE_SIZE : Nat :=
  ZYDIS_MAX_INSTRUCTION_LENGTH + ZYREX_SIZEOF_RELATIVE_JUMP - 1

/-- `ZYREX_TRAMPOLINE_MAX_CODE_SIZE_WITH_BACKJUMP` (Trampoline.c lines 54-55):
`ZYREX_TRAMPOLINE_MAX_CODE_SIZE + ZYREX_SIZEOF_ABSOLUTE_JUMP = 25`.  This is
the declared length of the `trampoline` array of the chunk struct defined in
Trampoline.c lines 115-147 (note: unlike the variant of the struct declared in
`Internal/Trampoline.h`, the one in the `.c` file has no BONUS bytes). -/
def ZYREX_TRAMPOLINE_MAX_CODE_SIZE_WITH_BACKJUMP : Nat :=
  ZYREX_TRAMPOLINE_MAX_CODE_SIZE + ZYREX_SIZEOF_ABSOLUTE_JUMP

/-- `ZYREX_TRAMPOLINE_MAX_INSTRUCTION_COUNT` (Trampoline.c lines 60-61):
`ZYREX_SIZEOF_RELATIVE_JUMP = 5`.  This is the declared length of the
`items` array of the translation map struct defined in Trampoline.c
lines 96-106 (the variant of the map struct declared in
`Internal/Trampoline.h` adds a BONUS of 2 slots; the `.c` file does not). -/
def ZYREX_TRAMPOLINE_MAX_INSTRUCTION_COUNT : Nat :=
  ZYREX_SIZEOF_RELATIVE_JUMP

/-- Instruction mnemonics the relocation loop dispatches on
(Trampoline.c lines 892-938); every other mnemonic falls into `other`. -/
inductive Mnemonic where
  | call
  | jcxz
  | jecxz
  | jrcxz
  | loop
  | loope
  | loopne
  | other
deriving DecidableEq, Repr

/-- The Zydis machine modes distinguished by `ZyrexCalcAbsoluteAddress`
(Trampoline.c lines 335-351). -/
inductive MachineMode where
  | longCompat16
  | legacy16
  | real16
  | longCompat32
  | legacy32
  | long64
deriving DecidableEq, Repr

/-- The fields of a Zydis `ZydisDecodedInstruction` that `Trampoline.c`
inspects.  `length` is the encoded length in bytes; `is_relative` is the
`ZYDIS_ATTRIB_IS_RELATIVE` attribute; `has_modrm` is
`ZYDIS_ATTRIB_HAS_MODRM`; `disp` is `raw.disp.value` (a `ZyanI64`);
`imm_is_signed`/`imm_is_relative`/`imm` describe `raw.imm[0]`. -/
structure Instr where
  length : Nat
  is_relative : Bool
  mnemonic : Mnemonic
  has_modrm : Bool
  modrm_mod : Nat
  modrm_rm : Nat
  address_width : Nat
  disp : Int
  imm_is_signed : Bool
  imm_is_relative : Bool
  imm : Int
  machine_mode : MachineMode
  operand_width : Nat
deriving DecidableEq, Repr

/-- The external decoder, as used by the engine: given the readable bytes
starting at the decode position it either yields a decoded instruction or
fails (`ZydisDecoderDecodeBuffer` returning an error status). -/
def Decoder : Type := List Nat → Option Instr

/-- The contract the engine relies on from the external decoder: a
successfully decoded instruction consumes at least one byte. -/
def DecoderContract (decode : Decoder) : Prop :=
  ∀ bytes i, decode bytes = some i → 1 ≤ i.length

/-- `ZyrexCalcAbsoluteAddress` (Trampoline.c lines 301-357).  Computes the
absolute target address of a relative-branch instruction or an instruction
with an `EIP/RIP`-relative memory operand decoded at `runtime_address`.
The C function falls through from the memory-operand case to the
relative-branch case when the address width matches neither 32 nor 64; the
`ZYAN_UNREACHABLE` exits are modelled as `none`. -/
def ZyrexCalcAbsoluteAddress (instruction : Instr) (runtime_address : Nat) :
    Option Nat :=
  -- Instruction with EIP/RIP-relative memory operand
  let memCase : Option Nat :=
    if instruction.has_modrm ∧ instruction.modrm_mod = 0 ∧
        instruction.modrm_rm = 5 then
      if instruction.address_width = 32 then
        -- (ZyanU32)runtime_address + length + (ZyanU32)disp, 32-bit wrap
        some ((runtime_address % 2 ^ 32 + instruction.length +
          (instruction.disp.emod (2 ^ 32)).toNat) % 2 ^ 32)
      else if instruction.address_width = 64 then
        -- runtime_address + length + disp, 64-bit wrap
        some ((((runtime_address : Int) + instruction.length +
          instruction.disp).emod (2 ^ 64)).toNat)
      else
        none
    else
      none
  match memCase with
  | some a => some a
  | none =>
    -- Relative branch instruction
    if instruction.imm_is_signed ∧ instruction.imm_is_relative then
      let base : Nat := ((((runtime_address : Int) + instruction.length +
        instruction.imm).emod (2 ^ 64)).toNat)
      match instruction.machine_mode with
      | .longCompat16 | .legacy16 | .real16 | .longCompat32 | .legacy32 =>
        if instruction.operand_width = 16 then some (base % 2 ^ 16)
        else some base
      | .long64 => some base
    else
      none

/-- The scan loop of `ZyrexGetAddressRangeOfRelativeInstructions`
(Trampoline.c lines 387-420).  `buffer_address` is the runtime address of the
buffer (the C code uses the buffer pointer itself as the runtime address of
offset 0).  `lo` and `hi` both start at 0 in the C code (line 387-388). -/
def zyrexRangeLoop (decode : Decoder) (buffer : List Nat)
    (buffer_address size min_bytes_to_decode : Nat) :
    Nat → Nat → Bool → Nat → Nat → Except ZyanStatus (Bool × Nat × Nat)
  | 0, offset, found, lo, hi =>
    if offset < min_bytes_to_decode then .error .fuelExhausted
    else .ok (found, lo, hi)
  | fuel + 1, offset, found, lo, hi =>
    if offset < min_bytes_to_decode then
      match decode ((buffer.drop offset).take (size - offset)) with
      | none => .error .decodeError
      | some instruction =>
        if !instruction.is_relative then
          zyrexRangeLoop decode buffer buffer_address size min_bytes_to_decode
            fuel (offset + instruction.length) found lo hi
        else
          match ZyrexCalcAbsoluteAddress instruction
              (buffer_address + offset) with
          | none => .error .decodeError
          | some result_address =>
            zyrexRangeLoop decode buffer buffer_address size
              min_bytes_to_decode fuel (offset + instruction.length) true
              (if result_address < lo then result_address else lo)
              (if hi < result_address then result_address else hi)
    else .ok (found, lo, hi)

/-- `ZyrexGetAddressRangeOfRelativeInstructions` (Trampoline.c lines
373-429).  Decodes sequentially from offset 0 until at least
`min_bytes_to_decode` bytes are consumed; the result is
`(found, address_lo, address_hi)` where the C function writes the two output
addresses only when `found` (it returns `ZYAN_STATUS_TRUE`/`FALSE`). -/
def ZyrexGetAddressRangeOfRelativeInstructions (decode : Decoder)
    (buffer : List Nat) (buffer_address size min_bytes_to_decode : Nat) :
    Except ZyanStatus (Bool × Nat × Nat) :=
  zyrexRangeLoop decode buffer buffer_address size min_bytes_to_decode
    min_bytes_to_decode 0 false 0 0

/-- A concrete stand-in for the external decoder used on the `C2` failing
input: decodes `E9 00 10 00 00` (`jmp rel32` with displacement `0x1000`)
and nothing else. -/
def c2Decoder : Decoder := fun bytes =>
  if bytes = [0xE9, 0x00, 0x10, 0x00, 0x00] then
    some { length := 5, is_relative := true, mnemonic := .other,
           has_modrm := false, modrm_mod := 0, modrm_rm := 0,
           address_width := 64, disp := 0, imm_is_signed := true,
           imm_is_relative := true, imm := 0x1000,
           machine_mode := .long64, operand_width := 32 }
  else none

/-- C2: the failing input evaluated.  The buffer at runtime address
`0x400000` holds a single relative `jmp` whose absolute target is
`0x400000 + 5 + 0x1000 = 0x401005`.  The claim requires `address_lo` to be
the minimum of the targets of all relative instructions, i.e. `0x401005`;
the code returns `0` because its running minimum starts at `0` (line 387)
instead of at the maximum pointer value, so no unsigned target can ever
lower it. -/
theorem C2_address_lo_stuck_at_zero :
    ZyrexGetAddressRangeOfRelativeInstructions c2Decoder
      [0xE9, 0x00, 0x10, 0x00, 0x00] 0x400000 5 5 =
      .ok (true, 0, 0x401005) ∧ (0 : Nat) ≠ 0x401005 := by
  constructor
  · rfl
  · decide

/-- Modelled from the spec: `ZyrexTrampolineFlags` and the
`ZYREX_TRAMPOLINE_FLAG_REWRITE_*` bitmask constants live in
`Zyrex/Internal/Trampoline.h` headers that are not part of the sources; the
spec (section 6) describes the flags as a bitmask of `REWRITE_CALL`,
`REWRITE_JCXZ` and `REWRITE_LOOP`, modelled here as three booleans. -/
structure TrampolineFlags where
  rewrite_call : Bool
  rewrite_jcxz : Bool
  rewrite_loop : Bool
deriving DecidableEq, Repr

/-- Modelled from the spec: `ZyrexWriteAbsoluteJump` lives in
`Zyrex/Internal/Utils.h`, which is not part of the sources.  Per the spec
(section 4.1) it emits the 6 bytes `FF 25 disp32` at `destination_address`,
where `disp32` is the signed 32-bit displacement from the end of the
instruction to `slot_address` (the address of the pointer slot the jump
dereferences), little endian. -/
def ZyrexWriteAbsoluteJump (destination_address slot_address : Nat) :
    List Nat :=
  let disp : Nat := (((slot_address : Int) -
    ((destination_address : Int) + ZYREX_SIZEOF_ABSOLUTE_JUMP)).emod
      (2 ^ 32)).toNat
  [0xFF, 0x25, disp % 2 ^ 8, disp / 2 ^ 8 % 2 ^ 8,
    disp / 2 ^ 16 % 2 ^ 8, disp / 2 ^ 24 % 2 ^ 8]

/-- The `ZyrexTrampolineChunk` struct as defined in Trampoline.c lines
115-147 (x64 variant).  `trampoline` has
`ZYREX_TRAMPOLINE_MAX_CODE_SIZE_WITH_BACKJUMP = 25` bytes; the embedded
translation map (`map` in the C struct) is flattened into `map_count` and
`map_items`, the latter holding `ZYREX_TRAMPOLINE_MAX_INSTRUCTION_COUNT = 5`
entries `(offset_original, offset_trampoline)`.  Note that this struct — the
one `ZyrexTrampolineChunkInit` operates on — has no `original_code`,
`original_code_size` or `code_buffer_size` field (the variant declared in
`Internal/Trampoline.h` lines 155-201 has them, but the `.c` code never
writes them). -/
structure ZyrexTrampolineChunk where
  is_used : Bool
  callback_address : Nat
  callback_jump : List Nat
  backjump_address : Nat
  trampoline : List Nat
  map_count : Nat
  map_items : List (Nat × Nat)
deriving DecidableEq, Repr

/-- A chunk in its default (zeroed, unused) state. -/
def emptyChunk : ZyrexTrampolineChunk :=
  { is_used := false
    callback_address := 0
    callback_jump := List.replicate ZYREX_SIZEOF_ABSOLUTE_JUMP 0
    backjump_address := 0
    trampoline :=
      List.replicate ZYREX_TRAMPOLINE_MAX_CODE_SIZE_WITH_BACKJUMP 0
    map_count := 0
    map_items :=
      List.replicate ZYREX_TRAMPOLINE_MAX_INSTRUCTION_COUNT (0, 0) }

/-- The runtime addresses of the chunk fields involved in jump emission
(`&chunk->callback_jump`, `&chunk->callback_address`,
`&chunk->trampoline[0]`, `&chunk->backjump_address`).  They are abstract
parameters of the model: the claims never depend on the C struct layout,
only on which buffer offsets are written. -/
structure ChunkAddrs where
  callback_jump : Nat
  callback_slot : Nat
  trampoline : Nat
  backjump_slot : Nat
deriving DecidableEq, Repr

/-- The mutable locals of the relocation loop of `ZyrexTrampolineChunkInit`
(Trampoline.c lines 871-874), plus two logs: `map_log` is the ordered
sequence of stores into `chunk->map.items` as abstract
`(offset_original, offset_trampoline)` pairs (the `i`-th entry is stored at
array index `i`), and `write_log` is the chronological sequence of
(index, value) byte stores the loop performs, in the flat struct-byte index
space of `chunkTailBytes` below (`memcpy` bytes land at their
`chunk->trampoline` index; each `map.items` store contributes its two bytes
at the map's byte offsets, so that out-of-bounds stores land where the C
struct layout puts them).
`instructions_read`/`instructions_written` are `ZyanU8` in the C code; they
are modelled as `Nat` (no run considered here reaches 256 instructions). -/
structure RelocState where
  bytes_read : Nat
  bytes_written : Nat
  instructions_read : Nat
  instructions_written : Nat
  map_log : List (Nat × Nat)
  write_log : List (Nat × Nat)
deriving DecidableEq, Repr

/-- The rejection test of the mnemonic dispatch (Trampoline.c lines
890-938): a relative `CALL` / `JCXZ`-family / `LOOP`-family instruction is
rejected with `ZYAN_STATUS_FAILED` when the corresponding rewrite flag is
cleared.  All other cases fall through (the rewrite bodies are absent from
the code; every branch ends in a plain `break`). -/
def relocRejected (flags : TrampolineFlags) (instruction : Instr) : Bool :=
  instruction.is_relative &&
    match instruction.mnemonic with
    | .call => !flags.rewrite_call
    | .jcxz | .jecxz | .jrcxz => !flags.rewrite_jcxz
    | .loop | .loope | .loopne => !flags.rewrite_loop
    | .other => false

/-- The byte stores of one loop iteration (Trampoline.c lines 939-943): a
non-relative instruction is `memcpy`ed verbatim to
`&chunk->trampoline[bytes_written]`; a relative instruction stores nothing
(all rewrite branches are empty). -/
def relocCopied (source : List Nat) (st : RelocState) (instruction : Instr) :
    List (Nat × Nat) :=
  if instruction.is_relative then []
  else (List.range instruction.length).map
    (fun j => (st.bytes_written + j, source.getD (st.bytes_read + j) 0))

/-- The two byte stores of
`chunk->map.items[instructions_read] = ((ZyanU8)bytes_read,
(ZyanU8)bytes_written)` (Trampoline.c lines 945-946), in the flat
struct-byte index space of `chunkTailBytes`: `map.count` is the byte
directly after `trampoline[24]` and `items[i]` occupies the two bytes
after it at offset `2 * i`. -/
def relocMapStoreBytes (st : RelocState) : List (Nat × Nat) :=
  [(ZYREX_TRAMPOLINE_MAX_CODE_SIZE_WITH_BACKJUMP + 1 +
      2 * st.instructions_read, st.bytes_read % 2 ^ 8),
   (ZYREX_TRAMPOLINE_MAX_CODE_SIZE_WITH_BACKJUMP + 2 +
      2 * st.instructions_read, st.bytes_written % 2 ^ 8)]

/-- The state update of one loop iteration (Trampoline.c lines 939-950):
optional verbatim copy, translation-map store of
`((ZyanU8)bytes_read, (ZyanU8)bytes_written)` at index `instructions_read`
(recorded both abstractly in `map_log` and as its two byte stores in
`write_log`), then both byte counters advance by the instruction length
and both instruction counters by one. -/
def relocStep (source : List Nat) (st : RelocState) (instruction : Instr) :
    RelocState :=
  { bytes_read := st.bytes_read + instruction.length
    bytes_written := st.bytes_written + instruction.length
    instructions_read := st.instructions_read + 1
    instructions_written := st.instructions_written + 1
    map_log :=
      st.map_log ++ [(st.bytes_read % 2 ^ 8, st.bytes_written % 2 ^ 8)]
    write_log := st.write_log ++ relocCopied source st instruction ++
      relocMapStoreBytes st }

/-- The relocation loop of `ZyrexTrampolineChunkInit` (Trampoline.c lines
877-951).  The decoder sees the source bytes from `bytes_read` up to
`max_bytes_to_read`.  A decode failure propagates (`ZYAN_CHECK`); a
rejected relative instruction returns `ZYAN_STATUS_FAILED` with the state
as of the start of the iteration (the C code returns before any store of
that iteration). -/
def relocLoop (decode : Decoder) (flags : TrampolineFlags)
    (source : List Nat) (min_bytes_to_reloc max_bytes_to_read : Nat) :
    Nat → RelocState → ZyanStatus × RelocState
  | 0, st =>
    if st.bytes_read < min_bytes_to_reloc then (.fuelExhausted, st)
    else (.success, st)
  | fuel + 1, st =>
    if st.bytes_read < min_bytes_to_reloc then
      match decode ((source.drop st.bytes_read).take
          (max_bytes_to_read - st.bytes_read)) with
      | none => (.decodeError, st)
      | some instruction =>
        if relocRejected flags instruction then (.failed, st)
        else
          relocLoop decode flags source min_bytes_to_reloc max_bytes_to_read
            fuel (relocStep source st instruction)
    else (.success, st)

/-- Applies a chronological write log to a byte region.  `List.set` leaves
the region unchanged for an index past its end: such a store runs past
every field the region models (for the 36-byte region of `chunkTailBytes`,
past the chunk struct's last field). -/
def applyWrites (buffer : List Nat) (writes : List (Nat × Nat)) : List Nat :=
  writes.foldl (fun buf w => buf.set w.1 w.2) buffer

/-- The tail of the chunk struct as one flat byte region.  In the `.c`
struct (Trampoline.c lines 115-147) the translation map directly follows
the `trampoline` array and consists solely of `ZyanU8` fields (`count`,
then five `(offset_original, offset_trampoline)` byte pairs), so there is
no padding between them: byte `ZYREX_TRAMPOLINE_MAX_CODE_SIZE_WITH_BACKJUMP`
(= 25) counted from `trampoline[0]` is `map.count`, and bytes `26 + 2*i` /
`27 + 2*i` are the two offsets of `map.items[i]`.  A store past
`trampoline[24]` therefore lands in the map.  The region is 36 bytes. -/
def chunkTailBytes (chunk : ZyrexTrampolineChunk) : List Nat :=
  chunk.trampoline ++ [chunk.map_count] ++
    (chunk.map_items.map (fun e => [e.1, e.2])).flatten

/-- Reads the translation-map items back out of the flat byte region of
`chunkTailBytes`. -/
def tailItems (tail : List Nat) : List (Nat × Nat) :=
  (List.range ZYREX_TRAMPOLINE_MAX_INSTRUCTION_COUNT).map (fun i =>
    (tail.getD (ZYREX_TRAMPOLINE_MAX_CODE_SIZE_WITH_BACKJUMP + 1 + 2 * i) 0,
     tail.getD (ZYREX_TRAMPOLINE_MAX_CODE_SIZE_WITH_BACKJUMP + 2 + 2 * i)
       0))

/-- The relocation loop of `ZyrexTrampolineChunkInit` as invoked by it:
counters start at zero and the fuel is `min_bytes_to_reloc` (each iteration
of the C loop consumes at least one source byte whenever the decoder honours
its contract, so this fuel is never exhausted then). -/
def chunkInitLoop (decode : Decoder) (source : List Nat)
    (min_bytes_to_reloc max_bytes_to_read : Nat) (flags : TrampolineFlags) :
    ZyanStatus × RelocState :=
  relocLoop decode flags source min_bytes_to_reloc max_bytes_to_read
    min_bytes_to_reloc
    { bytes_read := 0, bytes_written := 0, instructions_read := 0,
      instructions_written := 0, map_log := [], write_log := [] }

/-- Observables of one `ZyrexTrampolineChunkInit` run that are not part of
the final chunk value: the final loop counters, the store logs, the indices
filled by the trailing `INT3` memset and the trampoline offset at which the
backjump was emitted. -/
structure InitInfo where
  bytes_read : Nat
  bytes_written : Nat
  instructions_read : Nat
  map_log : List (Nat × Nat)
  write_log : List (Nat × Nat)
  int3_log : List (Nat × Nat)
  backjump_offset : Nat
deriving DecidableEq, Repr

/-- Result of `ZyrexTrampolineChunkInit`: the status, the chunk as the
function left it (the C function mutates the chunk in place, so on failure
the partial writes persist), and the run observables. -/
structure ChunkInitResult where
  status : ZyanStatus
  chunk : ZyrexTrampolineChunk
  info : InitInfo
deriving DecidableEq, Repr

/-- `ZyrexTrampolineChunkInit` (Trampoline.c lines 841-967, x64 variant).
Sets `is_used`, stores the callback address and the callback jump, runs the
relocation loop, then on success emits the backjump at
`trampoline[bytes_written]` (line 953), sets
`backjump_address = address + bytes_read` (line 955) and
`map.count = instructions_read` (line 956), and fills
`bytes_remaining = ZYREX_TRAMPOLINE_MAX_CODE_SIZE_WITH_BACKJUMP -
bytes_written` bytes with `0xCC` starting at
`trampoline[bytes_written + ZYREX_SIZEOF_ABSOLUTE_JUMP]` (lines 958-964).
All byte stores are applied chronologically, in that order, to the flat
`chunkTailBytes` region, so the fill's overrun of the `trampoline` array
lands in `map.count` and the first `map.items` entries exactly as the C
struct layout dictates; the final `trampoline`, `map_count` and
`map_items` fields are read back from the region.  `source` holds the
bytes readable at `address`.  (If `bytes_written` exceeded the buffer size
— which needs `min_bytes_to_reloc ≥ 13` and a long final instruction — the
C size expression would underflow its unsigned type and the memset would
trample the whole address space; the model's `Nat` subtraction fills
nothing in that case.  No claim involves such a run.) -/
def ZyrexTrampolineChunkInit (decode : Decoder) (addrs : ChunkAddrs)
    (chunk0 : ZyrexTrampolineChunk) (source : List Nat)
    (address callback : Nat) (min_bytes_to_reloc max_bytes_to_read : Nat)
    (flags : TrampolineFlags) : ChunkInitResult :=
  let chunk1 : ZyrexTrampolineChunk :=
    { chunk0 with
      is_used := true
      callback_address := callback % 2 ^ 64
      callback_jump :=
        ZyrexWriteAbsoluteJump addrs.callback_jump addrs.callback_slot }
  let r := chunkInitLoop decode source min_bytes_to_reloc max_bytes_to_read
    flags
  let st := r.2
  if r.1 = ZyanStatus.success then
    let backjump_bytes :=
      ZyrexWriteAbsoluteJump (addrs.trampoline + st.bytes_written)
        addrs.backjump_slot
    let backjump_writes := (List.range ZYREX_SIZEOF_ABSOLUTE_JUMP).map
      (fun j => (st.bytes_written + j, backjump_bytes.getD j 0))
    let bytes_remaining :=
      ZYREX_TRAMPOLINE_MAX_CODE_SIZE_WITH_BACKJUMP - st.bytes_written
    let int3_writes :=
      if 0 < bytes_remaining then
        (List.range bytes_remaining).map (fun j =>
          (st.bytes_written + ZYREX_SIZEOF_ABSOLUTE_JUMP + j, 0xCC))
      else []
    let combined := st.write_log ++ backjump_writes ++
      [(ZYREX_TRAMPOLINE_MAX_CODE_SIZE_WITH_BACKJUMP,
        st.instructions_read % 2 ^ 8)] ++ int3_writes
    let tail := applyWrites (chunkTailBytes chunk1) combined
    { status := .success
      chunk :=
        { chunk1 with
          trampoline :=
            tail.take ZYREX_TRAMPOLINE_MAX_CODE_SIZE_WITH_BACKJUMP
          backjump_address := (address + st.bytes_read) % 2 ^ 64
          map_count :=
            tail.getD ZYREX_TRAMPOLINE_MAX_CODE_SIZE_WITH_BACKJUMP 0
          map_items := tailItems tail }
      info :=
        { bytes_read := st.bytes_read
          bytes_written := st.bytes_written
          instructions_read := st.instructions_read
          map_log := st.map_log
          write_log := combined
          int3_log := int3_writes
          backjump_offset := st.bytes_written } }
  else
    let tail := applyWrites (chunkTailBytes chunk1) st.write_log
    { status := r.1
      chunk :=
        { chunk1 with
          trampoline :=
            tail.take ZYREX_TRAMPOLINE_MAX_CODE_SIZE_WITH_BACKJUMP
          map_count :=
            tail.getD ZYREX_TRAMPOLINE_MAX_CODE_SIZE_WITH_BACKJUMP 0
          map_items := tailItems tail }
      info :=
        { bytes_read := st.bytes_read
          bytes_written := st.bytes_written
          instructions_read := st.instructions_read
          map_log := st.map_log
          write_log := st.write_log
          int3_log := []
          backjump_offset := 0 } }

/-- Outcome of the chunk phase of `ZyrexTrampolineCreateEx`: status, the
chunk as left behind, the region's unused-chunk counter, whether the region
was freed resp. re-protected to `RX`, and whether a trampoline handle was
published to the caller. -/
structure CreateChunkOutcome where
  status : ZyanStatus
  chunk : ZyrexTrampolineChunk
  number_of_unused_chunks : Nat
  region_freed : Bool
  region_reprotected : Bool
  handle_published : Bool
deriving DecidableEq, Repr

/-- The chunk phase of `ZyrexTrampolineCreateEx` (Trampoline.c lines
1068-1093): a chunk has been selected (in a freshly allocated region iff
`is_new_region`) and the region is writable.  The builder runs; on failure
the freshly allocated region is freed, or the existing region is
re-protected, and the builder's status propagates; on success the region's
unused-chunk counter is decremented, the region re-protected and the handle
published.  Neither path writes the chunk again after the builder
returns. -/
def ZyrexTrampolineCreateExChunkPhase (decode : Decoder)
    (addrs : ChunkAddrs) (chunk : ZyrexTrampolineChunk)
    (region_unused_chunks : Nat) (is_new_region : Bool)
    (source : List Nat) (address callback : Nat)
    (min_bytes_to_reloc source_size : Nat) (flags : TrampolineFlags) :
    CreateChunkOutcome :=
  let r := ZyrexTrampolineChunkInit decode addrs chunk source address
    callback min_bytes_to_reloc source_size flags
  if r.status = ZyanStatus.success then
    { status := .success
      chunk := r.chunk
      number_of_unused_chunks := region_unused_chunks - 1
      region_freed := false
      region_reprotected := true
      handle_published := true }
  else
    { status := r.status
      chunk := r.chunk
      number_of_unused_chunks := region_unused_chunks
      region_freed := is_new_region
      region_reprotected := !is_new_region
      handle_published := false }

/-- The `ZyrexTrampolineRegion` union (Trampoline.c lines 158-178): the
header (signature, unused-chunk count) shares memory with the first chunk;
`chunks` is the chunk array.  The region's base address is kept separate
in the model (`region_address` parameters below), since the C code derives
everything from the pointer. -/
structure ZyrexTrampolineRegion where
  signature : Nat
  number_of_unused_chunks : Nat
  chunks : List ZyrexTrampolineChunk
deriving DecidableEq, Repr

/-- `ZyrexTrampolineRegionInRange` (Trampoline.c lines 448-476), transcribed
with C operator precedence: the condition of each conditional expression
reads `(region_base - address + address) < region_base`, which is always
false, so both distances are the constant
`sizeof(chunk) * (chunks_per_region - 1)`.  `chunk_size` models
`sizeof(ZyrexTrampolineChunk)` and `chunks_per_region` the global
`g_trampoline_data.chunks_per_region`. -/
def ZyrexTrampolineRegionInRange (chunk_size chunks_per_region : Nat)
    (region_address address_lo address_hi : Int) : Bool :=
  -- Skip the first chunk as it shares memory with the region-header
  let region_base : Int := region_address + chunk_size
  let distance_lo : Int :=
    if region_base - address_lo + address_lo < region_base then
      (chunk_size : Int)
    else ((chunk_size * (chunks_per_region - 1) : Nat) : Int)
  if distance_lo.natAbs > ZYREX_RANGEOF_RELATIVE_JUMP then false
  else
    let distance_hi : Int :=
      if region_base - address_hi + address_hi < region_base then
        (chunk_size : Int)
      else ((chunk_size * (chunks_per_region - 1) : Nat) : Int)
    if distance_hi.natAbs > ZYREX_RANGEOF_RELATIVE_JUMP then false
    else true

/-- `ZyrexTrampolineRegionFindChunkInRegion` (Trampoline.c lines 487-528).
Rejects a region with no unused chunks or out of range, then walks chunks
`1 .. chunks_per_region - 1` and returns the index of the first chunk whose
worst-case distances to both bounds are within
`ZYREX_RANGEOF_RELATIVE_JUMP`.  The loop reads no per-chunk state — in
particular not `chunks[i].is_used`. -/
def ZyrexTrampolineRegionFindChunkInRegion (chunk_size chunks_per_region : Nat)
    (region_address : Int) (region : ZyrexTrampolineRegion)
    (address_lo address_hi : Int) : Option Nat :=
  if region.number_of_unused_chunks = 0 then none
  else if !(ZyrexTrampolineRegionInRange chunk_size chunks_per_region
      region_address address_lo address_hi) then none
  else
    -- Skip the first chunk as it shares memory with the region-header
    (List.range' 1 (chunks_per_region - 1)).find? (fun i =>
      let chunk_base : Int := region_address + ((i * chunk_size : Nat) : Int)
      let distance_lo_chunk : Int := chunk_base - address_lo +
        (if address_lo < chunk_base then (chunk_size : Int) else 0)
      if distance_lo_chunk.natAbs > ZYREX_RANGEOF_RELATIVE_JUMP then false
      else
        let distance_hi_chunk : Int := chunk_base - address_hi +
          (if address_hi < chunk_base then (chunk_size : Int) else 0)
        decide (¬ distance_hi_chunk.natAbs > ZYREX_RANGEOF_RELATIVE_JUMP))

/-- The global `g_trampoline_data` (Trampoline.c lines 194-218).  `is_init`
models the `is_initialized` latch. -/
structure TrampolineData where
  is_init : Bool
  region_size : Nat
  chunks_per_region : Nat
  regions : List ZyrexTrampolineRegion
deriving DecidableEq, Repr

/-- `ZyrexTrampolineFree` (Trampoline.c lines 1096-1118).  The body after
the argument checks is a stub (marked `TODO` in the source): it only reads
the region list's size and, when the list is empty, destroys it and clears
the latch; it never touches any region or chunk. -/
def ZyrexTrampolineFree (trampoline_handle : Option Nat)
    (data : TrampolineData) : ZyanStatus × TrampolineData :=
  if trampoline_handle.isNone then (.invalidArgument, data)
  else if !data.is_init then (.invalidOperation, data)
  else if data.regions.length = 0 then
    (.success, { data with is_init := false })
  else (.success, data)

/-- All three rewrite flags set (the default of `ZyrexTrampolineCreate`,
Trampoline.c lines 975-982). -/
def allFlags : TrampolineFlags :=
  { rewrite_call := true, rewrite_jcxz := true, rewrite_loop := true }

/-- No rewrite flag set. -/
def noFlags : TrampolineFlags :=
  { rewrite_call := false, rewrite_jcxz := false, rewrite_loop := false }

/-- Chunk field addresses fixed to zero for concrete runs (the claims never
depend on them). -/
def addrs0 : ChunkAddrs :=
  { callback_jump := 0, callback_slot := 0, trampoline := 0,
    backjump_slot := 0 }

/-- A concrete stand-in for the external decoder that decodes the one-byte
`NOP` (`90`) and nothing else. -/
def nopDecoder : Decoder := fun bytes =>
  if bytes.head? = some 0x90 then
    some { length := 1, is_relative := false, mnemonic := .other,
           has_modrm := false, modrm_mod := 0, modrm_rm := 0,
           address_width := 64, disp := 0, imm_is_signed := false,
           imm_is_relative := false, imm := 0,
           machine_mode := .long64, operand_width := 32 }
  else none

/-- A concrete stand-in for the external decoder used on the `C1` failing
input: decodes `EB 05` (`jmp rel8`, a relative instruction that is neither
`CALL` nor `JCXZ`/`JECXZ`/`JRCXZ` nor `LOOP`/`LOOPE`/`LOOPNE`) and nothing
else. -/
def c1Decoder : Decoder := fun bytes =>
  if bytes = [0xEB, 0x05] then
    some { length := 2, is_relative := true, mnemonic := .other,
           has_modrm := false, modrm_mod := 0, modrm_rm := 0,
           address_width := 64, disp := 0, imm_is_signed := true,
           imm_is_relative := true, imm := 5,
           machine_mode := .long64, operand_width := 32 }
  else none

/-- A concrete stand-in for the external decoder used on the `C4` failing
input: decodes `E8 00 00 00 00` (`call rel32`) and nothing else. -/
def c4Decoder : Decoder := fun bytes =>
  if bytes = [0xE8, 0x00, 0x00, 0x00, 0x00] then
    some { length := 5, is_relative := true, mnemonic := .call,
           has_modrm := false, modrm_mod := 0, modrm_rm := 0,
           address_width := 64, disp := 0, imm_is_signed := true,
           imm_is_relative := true, imm := 0,
           machine_mode := .long64, operand_width := 32 }
  else none

/-- The `C1` failing run: a trampoline is built (successfully, per the
code) over the prologue `EB 05` with all rewrite flags set. -/
def c1Run : ChunkInitResult :=
  ZyrexTrampolineChunkInit c1Decoder addrs0 emptyChunk [0xEB, 0x05]
    0x400000 0x500000 2 2 allFlags

/-- C1: the failing input evaluated.  The prologue is the single relative
instruction `EB 05` (`jmp rel8`, neither `CALL` nor `JCXZ`-family nor
`LOOP`-family), `min_bytes_to_reloc = 2`, all rewrite flags set.  The claim
requires the instruction to be rewritten into the trampoline so its operand
designates the original absolute target; the code emits nothing at all for
it: initialization succeeds, yet every byte store of the whole run lands at
offset 2 or beyond (the translation-map bytes, the backjump, the `map.count`
store and the `INT3` fill), and the two bytes where the relocated
instruction belongs still hold their initial (zero-filled) content, which
encodes no jump. -/
theorem C1_relative_instruction_bytes_not_emitted :
    c1Run.status = ZyanStatus.success ∧
    c1Run.info.bytes_written = 2 ∧
    c1Run.chunk.trampoline.take 2 = [0, 0] ∧
    ∀ e ∈ c1Run.info.write_log, 2 ≤ e.1 := by
  refine ⟨rfl, rfl, rfl, ?_⟩
  decide

/-- The `C4`/`C5`/`C6` base run over five `NOP`s: a fully successful
trampoline creation. -/
def nopRun : ChunkInitResult :=
  ZyrexTrampolineChunkInit nopDecoder addrs0 emptyChunk
    (List.replicate 5 0x90) 0x400000 0x500000 5 5 allFlags

/-- C5: a successful run evaluated in full.  The resulting chunk — the
struct `ZyrexTrampolineChunkInit` initializes (Trampoline.c lines 115-147)
— consists of exactly the fields below (the map fields show the `0xCC`
corruption left by the overflowing `INT3` fill, cf. the `C6` and `C9`
findings); the function saves no copy of the original source bytes and
maintains no `original_code_size`: no field of the written chunk holds the
prologue `90 90 90 90 90` verbatim. -/
theorem C5_no_original_code_saved :
    nopRun.status = ZyanStatus.success ∧
    nopRun.info.bytes_read = 5 ∧
    nopRun.chunk =
      { is_used := true
        callback_address := 0x500000
        callback_jump := [0xFF, 0x25, 0xFA, 0xFF, 0xFF, 0xFF]
        backjump_address := 0x400005
        trampoline := List.replicate 5 0x90 ++
          [0xFF, 0x25, 0xF5, 0xFF, 0xFF, 0xFF] ++ List.replicate 14 0xCC
        map_count := 0xCC
        map_items := [(0xCC, 0xCC), (0xCC, 0xCC), (0xCC, 2), (3, 3),
          (4, 4)] } := by
  refine ⟨rfl, rfl, ?_⟩
  decide

/-- C6: the trailing `INT3` fill evaluated on the successful five-`NOP`
run.  `bytes_written = 5`, so the memset starts at offset
`5 + ZYREX_SIZEOF_ABSOLUTE_JUMP = 11` but writes
`ZYREX_TRAMPOLINE_MAX_CODE_SIZE_WITH_BACKJUMP - 5 = 20` bytes, i.e. up to
index 30 — six bytes past the last element (index 24) of the 25-byte
`trampoline` array. -/
theorem C6_int3_fill_overflows_buffer :
    nopRun.status = ZyanStatus.success ∧
    nopRun.info.bytes_written = 5 ∧
    (30, 0xCC) ∈ nopRun.info.int3_log ∧
    nopRun.chunk.trampoline.length =
      ZYREX_TRAMPOLINE_MAX_CODE_SIZE_WITH_BACKJUMP ∧
    ZYREX_TRAMPOLINE_MAX_CODE_SIZE_WITH_BACKJUMP ≤ 30 := by
  refine ⟨rfl, rfl, ?_, ?_, ?_⟩ <;> decide

/-- The `C4` failing run: the builder rejects `call rel32` because
`REWRITE_CALL` is cleared, inside an existing (not freshly allocated)
region whose unused-chunk counter is 3 and whose selected chunk was unused
before the call. -/
def c4Run : CreateChunkOutcome :=
  ZyrexTrampolineCreateExChunkPhase c4Decoder addrs0 emptyChunk 3 false
    [0xE8, 0x00, 0x00, 0x00, 0x00] 0x400000 0x500000 5 5 noFlags

/-- C4: the failing input evaluated.  The create call fails after the chunk
was selected (builder rejects the `CALL` under cleared `REWRITE_CALL`), the
region is re-protected and no handle published — but the selected chunk's
`is_used` flag, set to true at the top of `ZyrexTrampolineChunkInit`
(line 852), is never reset on the error path (lines 1070-1082), so the
claimed unwinding does not happen and the chunk is left marked used while
the region's unused counter still counts it as free. -/
theorem C4_failed_create_leaves_chunk_marked_used :
    c4Run.status = ZyanStatus.failed ∧
    c4Run.chunk.is_used = true ∧
    c4Run.number_of_unused_chunks = 3 ∧
    c4Run.region_reprotected = true ∧
    c4Run.handle_published = false := by
  refine ⟨rfl, rfl, rfl, rfl, rfl⟩

/-- A chunk marked used. -/
def usedChunk : ZyrexTrampolineChunk := { emptyChunk with is_used := true }

/-- A region of four chunks in which chunk 1 is used (and chunks 2, 3 are
free, matching `number_of_unused_chunks = 2`; chunk 0 is the header). -/
def testRegion : ZyrexTrampolineRegion :=
  { signature := 0x7A726578
    number_of_unused_chunks := 2
    chunks := [emptyChunk, usedChunk, emptyChunk, emptyChunk] }

/-- C3: the failing input evaluated.  In a region at `0x10000` with
`sizeof(chunk) = 256` and 4 chunks per region, chunk 1 is already used
(`number_of_unused_chunks = 2`, chunks 2 and 3 are free).  Searching with
`address_lo = address_hi = 0x10000` returns chunk 1 anyway: the search loop
(lines 505-525) checks only the distance heuristic and never reads
`chunks[i].is_used`, so a second create call is handed the same chunk a
first one is still using. -/
theorem C3_find_chunk_returns_used_chunk :
    ZyrexTrampolineRegionFindChunkInRegion 256 4 0x10000 testRegion
      0x10000 0x10000 = some 1 ∧
    (testRegion.chunks.getD 1 emptyChunk).is_used = true := by
  refine ⟨?_, rfl⟩
  decide

/-- A pool state holding one region (which contains a live, used chunk). -/
def testPool : TrampolineData :=
  { is_init := true
    region_size := 1024
    chunks_per_region := 4
    regions := [testRegion] }

/-- C8: the failing input evaluated.  Freeing a live handle (any non-null
handle value; the stub never reads it) while the pool holds one region
returns success and changes nothing: the containing chunk stays used, the
region's unused-chunk counter is not incremented, the region list is
untouched and the latch stays set. -/
theorem C8_free_is_a_stub :
    ZyrexTrampolineFree (some 0x10100) testPool =
      (ZyanStatus.success, testPool) ∧
    ((testPool.regions.getD 0 testRegion).chunks.getD 1 emptyChunk).is_used
      = true ∧
    (testPool.regions.getD 0 testRegion).number_of_unused_chunks = 2 ∧
    testPool.is_init = true := by
  refine ⟨rfl, rfl, rfl, rfl⟩

/-- Invariant of the relocation loop underlying `C10`: the two byte
counters stay equal (lines 947-948 advance both by the same instruction
length) and every translation-map entry pairs equal offsets. -/
def relocEqInv (st : RelocState) : Prop :=
  st.bytes_written = st.bytes_read ∧ ∀ e ∈ st.map_log, e.1 = e.2

theorem relocStep_eqInv (source : List Nat) (st : RelocState)
    (instruction : Instr) (h : relocEqInv st) :
    relocEqInv (relocStep source st instruction) := by
  obtain ⟨h1, h2⟩ := h
  refine ⟨by simp [relocStep, h1], ?_⟩
  intro e he
  simp only [relocStep, List.mem_append, List.mem_singleton] at he
  rcases he with he | he
  · exact h2 e he
  · subst he; simp [h1]

theorem relocLoop_eqInv (decode : Decoder) (flags : TrampolineFlags)
    (source : List Nat) (min_bytes_to_reloc max_bytes_to_read : Nat) :
    ∀ (fuel : Nat) (st : RelocState), relocEqInv st →
      relocEqInv (relocLoop decode flags source min_bytes_to_reloc
        max_bytes_to_read fuel st).2 := by
  intro fuel
  induction fuel with
  | zero =>
    intro st h
    simp only [relocLoop]
    split <;> exact h
  | succ n ih =>
    intro st h
    simp only [relocLoop]
    split
    · split
      · exact h
      · split
        · exact h
        · exact ih _ (relocStep_eqInv _ _ _ h)
    · exact h

/-- Loop-level invariant of the relocation loop: the byte counters stay
equal, the translation-map store log is strictly increasing in both
coordinates, and every stored entry lies strictly below the current
counters.  (This concerns the sequence of stores the loop performs; the
in-memory `map` array is corrupted again after the loop by the overflowing
`INT3` fill, which is why the post-create map of the chunk is *not*
strictly increasing.) -/
def relocOrdInv (st : RelocState) : Prop :=
  st.bytes_written = st.bytes_read ∧
  List.Pairwise (fun a b : Nat × Nat => a.1 < b.1 ∧ a.2 < b.2) st.map_log ∧
  ∀ e ∈ st.map_log, e.1 < st.bytes_read ∧ e.2 < st.bytes_written

theorem relocStep_ordInv (source : List Nat) (st : RelocState)
    (instruction : Instr) (min_bytes_to_reloc : Nat)
    (hmin : min_bytes_to_reloc ≤ 2 ^ 8)
    (hlt : st.bytes_read < min_bytes_to_reloc)
    (hlen : 1 ≤ instruction.length) (h : relocOrdInv st) :
    relocOrdInv (relocStep source st instruction) := by
  obtain ⟨h1, hpw, hbnd⟩ := h
  have hbr : st.bytes_read % 2 ^ 8 = st.bytes_read :=
    Nat.mod_eq_of_lt (lt_of_lt_of_le hlt hmin)
  have hbw : st.bytes_written % 2 ^ 8 = st.bytes_written := by rw [h1, hbr]
  refine ⟨by simp [relocStep, h1], ?_, ?_⟩
  · simp only [relocStep]
    rw [List.pairwise_append]
    refine ⟨hpw, List.pairwise_singleton _ _, ?_⟩
    intro a ha b hb
    simp only [List.mem_singleton] at hb
    subst hb
    have hab := hbnd a ha
    exact ⟨by rw [hbr]; exact hab.1, by rw [hbw]; exact hab.2⟩
  · intro e he
    simp only [relocStep, List.mem_append, List.mem_singleton] at he
    rcases he with he | he
    · have hab := hbnd e he
      simp only [relocStep]
      omega
    · subst he
      simp only [relocStep, hbr, hbw]
      omega

theorem relocLoop_ordInv (decode : Decoder) (hdec : DecoderContract decode)
    (flags : TrampolineFlags) (source : List Nat)
    (min_bytes_to_reloc max_bytes_to_read : Nat)
    (hmin : min_bytes_to_reloc ≤ 2 ^ 8) :
    ∀ (fuel : Nat) (st : RelocState), relocOrdInv st →
      relocOrdInv (relocLoop decode flags source min_bytes_to_reloc
        max_bytes_to_read fuel st).2 := by
  intro fuel
  induction fuel with
  | zero =>
    intro st h
    simp only [relocLoop]
    split <;> exact h
  | succ n ih =>
    intro st h
    simp only [relocLoop]
    split
    · rename_i hlt
      split
      · exact h
      · rename_i instruction hinst
        split
        · exact h
        · exact ih _ (relocStep_ordInv _ _ _ _ hmin hlt
            (hdec _ _ hinst) h)
    · exact h

theorem relocStep_bytes_read (source : List Nat) (st : RelocState)
    (instruction : Instr) :
    (relocStep source st instruction).bytes_read =
      st.bytes_read + instruction.length := rfl

theorem relocStep_instructions_read (source : List Nat) (st : RelocState)
    (instruction : Instr) :
    (relocStep source st instruction).instructions_read =
      st.instructions_read + 1 := rfl

theorem relocStep_map_log_length (source : List Nat) (st : RelocState)
    (instruction : Instr) :
    (relocStep source st instruction).map_log.length =
      st.map_log.length + 1 := by
  simp [relocStep]

/-- Underlying `C7`: under the decoder contract, every loop iteration
consumes at least one source byte while `bytes_read < min_bytes_to_reloc`
still held on entry, so the number of instructions read grows by at most
the number of source bytes still owed. -/
theorem relocLoop_count (decode : Decoder) (hdec : DecoderContract decode)
    (flags : TrampolineFlags) (source : List Nat)
    (min_bytes_to_reloc max_bytes_to_read : Nat) :
    ∀ (fuel : Nat) (st : RelocState),
      (relocLoop decode flags source min_bytes_to_reloc max_bytes_to_read
        fuel st).2.instructions_read ≤
      st.instructions_read + (min_bytes_to_reloc - st.bytes_read) := by
  intro fuel
  induction fuel with
  | zero =>
    intro st
    simp only [relocLoop]
    split <;> dsimp only <;> omega
  | succ n ih =>
    intro st
    simp only [relocLoop]
    split
    · rename_i hlt
      split
      · dsimp only; omega
      · rename_i instruction hinst
        split
        · dsimp only; omega
        · have hlen := hdec _ _ hinst
          have hrec := ih (relocStep source st instruction)
          simp only [relocStep_bytes_read, relocStep_instructions_read]
            at hrec
          omega
    · dsimp only; omega

/-- The translation-map store log grows in lockstep with the
instructions-read counter. -/
theorem relocLoop_map_len (decode : Decoder) (flags : TrampolineFlags)
    (source : List Nat) (min_bytes_to_reloc max_bytes_to_read : Nat) :
    ∀ (fuel : Nat) (st : RelocState),
      (relocLoop decode flags source min_bytes_to_reloc max_bytes_to_read
        fuel st).2.map_log.length + st.instructions_read =
      (relocLoop decode flags source min_bytes_to_reloc max_bytes_to_read
        fuel st).2.instructions_read + st.map_log.length := by
  intro fuel
  induction fuel with
  | zero =>
    intro st
    simp only [relocLoop]
    split <;> dsimp only <;> omega
  | succ n ih =>
    intro st
    simp only [relocLoop]
    split
    · split
      · dsimp only; omega
      · rename_i instruction _
        split
        · dsimp only; omega
        · have hrec := ih (relocStep source st instruction)
          simp only [relocStep_instructions_read, relocStep_map_log_length]
            at hrec
          omega
    · dsimp only; omega

/-- The run observables of `ZyrexTrampolineChunkInit` expose the final loop
state unchanged, on success and on failure alike. -/
theorem chunkInit_info_loop (decode : Decoder) (addrs : ChunkAddrs)
    (chunk0 : ZyrexTrampolineChunk) (source : List Nat)
    (address callback : Nat) (min_bytes_to_reloc max_bytes_to_read : Nat)
    (flags : TrampolineFlags) :
    (ZyrexTrampolineChunkInit decode addrs chunk0 source address callback
      min_bytes_to_reloc max_bytes_to_read flags).info.bytes_read =
      (chunkInitLoop decode source min_bytes_to_reloc max_bytes_to_read
        flags).2.bytes_read ∧
    (ZyrexTrampolineChunkInit decode addrs chunk0 source address callback
      min_bytes_to_reloc max_bytes_to_read flags).info.bytes_written =
      (chunkInitLoop decode source min_bytes_to_reloc max_bytes_to_read
        flags).2.bytes_written ∧
    (ZyrexTrampolineChunkInit decode addrs chunk0 source address callback
      min_bytes_to_reloc max_bytes_to_read flags).info.map_log =
      (chunkInitLoop decode source min_bytes_to_reloc max_bytes_to_read
        flags).2.map_log := by
  simp only [ZyrexTrampolineChunkInit]
  split <;> exact ⟨rfl, rfl, rfl⟩

/-- On a successful `ZyrexTrampolineChunkInit` run the backjump is emitted
at the final `bytes_written` of the relocation loop. -/
theorem chunkInit_backjump_offset (decode : Decoder) (addrs : ChunkAddrs)
    (chunk0 : ZyrexTrampolineChunk) (source : List Nat)
    (address callback : Nat) (min_bytes_to_reloc max_bytes_to_read : Nat)
    (flags : TrampolineFlags)
    (hok : (ZyrexTrampolineChunkInit decode addrs chunk0 source address
      callback min_bytes_to_reloc max_bytes_to_read flags).status =
      ZyanStatus.success) :
    (ZyrexTrampolineChunkInit decode addrs chunk0 source address callback
      min_bytes_to_reloc max_bytes_to_read flags).info.backjump_offset =
      (chunkInitLoop decode source min_bytes_to_reloc max_bytes_to_read
        flags).2.bytes_written := by
  simp only [ZyrexTrampolineChunkInit] at hok ⊢
  split at hok
  · rename_i hc
    rw [if_pos hc]
  · exact absurd hok (by
      rename_i hc
      simpa using hc)

/-- The `NOP`-only stand-in decoder honours the decoder contract. -/
theorem nopDecoder_contract : DecoderContract nopDecoder := by
  intro bytes i h
  unfold nopDecoder at h
  split at h
  · simp only [Option.some.injEq] at h
    subst h
    exact Nat.le_refl 1
  · simp at h

/-- C9: the failing input evaluated.  The relocation loop does store a
strictly increasing entry sequence (`relocLoop_ordInv` above), but the
claim is about the chunk after a successful create, and there the trailing
`INT3` fill — which always overruns the `trampoline` array by
`ZYREX_SIZEOF_ABSOLUTE_JUMP` bytes (the `C6` finding) — has clobbered the
directly following translation map: after the five-`NOP` create,
`map.count` reads `0xCC` and the map's first consecutive entries, both at
indices below `count`, are `(0xCC, 0xCC)` and `(0xCC, 0xCC)` — not
strictly increasing in either coordinate. -/
theorem C9_post_create_map_corrupted :
    nopRun.status = ZyanStatus.success ∧
    nopRun.chunk.map_count = 0xCC ∧
    nopRun.chunk.map_items.take 2 = [(0xCC, 0xCC), (0xCC, 0xCC)] ∧
    (1 : Nat) + 1 < nopRun.chunk.map_count ∧
    ¬ ((nopRun.chunk.map_items.getD 0 (0, 0)).1 <
         (nopRun.chunk.map_items.getD 1 (0, 0)).1 ∧
       (nopRun.chunk.map_items.getD 0 (0, 0)).2 <
         (nopRun.chunk.map_items.getD 1 (0, 0)).2) := by
  refine ⟨rfl, rfl, rfl, by decide, by decide⟩

/-- C10: on every successful chunk initialization the loop exits with
`bytes_written = bytes_read` (both counters advance by exactly the original
instruction length each iteration, lines 947-948), every translation-map
entry pairs equal offsets, and the backjump is emitted at trampoline offset
`bytes_read`. -/
theorem C10_trampoline_offsets_equal_original_offsets
    (decode : Decoder) (addrs : ChunkAddrs) (chunk0 : ZyrexTrampolineChunk)
    (source : List Nat)
    (address callback min_bytes_to_reloc max_bytes_to_read : Nat)
    (flags : TrampolineFlags) (r : ChunkInitResult)
    (hr : ZyrexTrampolineChunkInit decode addrs chunk0 source address
      callback min_bytes_to_reloc max_bytes_to_read flags = r)
    (hok : r.status = ZyanStatus.success) :
    r.info.bytes_written = r.info.bytes_read ∧
    (∀ e ∈ r.info.map_log, e.1 = e.2) ∧
    r.info.backjump_offset = r.info.bytes_read := by
  subst hr
  have hinv : relocEqInv (chunkInitLoop decode source min_bytes_to_reloc
      max_bytes_to_read flags).2 :=
    relocLoop_eqInv decode flags source min_bytes_to_reloc max_bytes_to_read
      min_bytes_to_reloc _ ⟨rfl, by simp⟩
  obtain ⟨hbr, hbw, hmap⟩ := chunkInit_info_loop decode addrs chunk0 source
    address callback min_bytes_to_reloc max_bytes_to_read flags
  have hbj := chunkInit_backjump_offset decode addrs chunk0 source address
    callback min_bytes_to_reloc max_bytes_to_read flags hok
  refine ⟨?_, ?_, ?_⟩
  · rw [hbr, hbw]; exact hinv.1
  · rw [hmap]; exact hinv.2
  · rw [hbj, hbr]; exact hinv.1

/-- C10 witness: the theorem applied to the concrete successful five-`NOP`
run. -/
theorem C10_trampoline_offsets_equal_original_offsets_witness :
    nopRun.info.bytes_written = nopRun.info.bytes_read ∧
    (∀ e ∈ nopRun.info.map_log, e.1 = e.2) ∧
    nopRun.info.backjump_offset = nopRun.info.bytes_read :=
  C10_trampoline_offsets_equal_original_offsets nopDecoder addrs0
    emptyChunk (List.replicate 5 0x90) 0x400000 0x500000 5 5 allFlags
    nopRun rfl (by decide)

/-- The `C7` counterexample run: nineteen readable `NOP` bytes,
`min_bytes_to_reloc = 8` (within the claim's stated range
`1 ≤ min_bytes_to_reloc ≤ ZYREX_TRAMPOLINE_MAX_CODE_SIZE`). -/
def c7Run : ChunkInitResult :=
  ZyrexTrampolineChunkInit nopDecoder addrs0 emptyChunk
    (List.replicate 19 0x90) 0x400000 0x500000 8 19 allFlags

/-- C7 counterexample: a successful create with `min_bytes_to_reloc = 8`
writes eight translation-map entries — more than the claimed compile-time
maximum of `ZYREX_SIZEOF_RELATIVE_JUMP + 2 = 7`, and (since stores go to
indices `0..7`) beyond the bounds of the `.c` file's 5-entry
`map.items` array (and of the header's 7-entry variant). -/
theorem C7_map_exceeds_claimed_bound :
    c7Run.status = ZyanStatus.success ∧
    (1 ≤ 8 ∧ 8 ≤ ZYREX_TRAMPOLINE_MAX_CODE_SIZE) ∧
    c7Run.info.map_log.length = 8 ∧
    ZYREX_SIZEOF_RELATIVE_JUMP + 2 < c7Run.info.map_log.length ∧
    ZYREX_TRAMPOLINE_MAX_INSTRUCTION_COUNT < c7Run.info.map_log.length := by
  exact ⟨rfl, by decide, rfl, by decide, by decide⟩

/-- C7 (amended): for every successful chunk initialization with
`min_bytes_to_reloc ≤ ZYREX_SIZEOF_RELATIVE_JUMP` (the value `create` is
designed around), the number of translation-map entries written never
exceeds the compile-time maximum `ZYREX_TRAMPOLINE_MAX_INSTRUCTION_COUNT =
ZYREX_SIZEOF_RELATIVE_JUMP = 5`, and every store index stays within the
5-item array bounds. -/
theorem C7_map_within_bounds_for_small_reloc
    (decode : Decoder) (hdec : DecoderContract decode) (addrs : ChunkAddrs)
    (chunk0 : ZyrexTrampolineChunk) (source : List Nat)
    (address callback min_bytes_to_reloc max_bytes_to_read : Nat)
    (flags : TrampolineFlags)
    (hmin : min_bytes_to_reloc ≤ ZYREX_SIZEOF_RELATIVE_JUMP)
    (r : ChunkInitResult)
    (hr : ZyrexTrampolineChunkInit decode addrs chunk0 source address
      callback min_bytes_to_reloc max_bytes_to_read flags = r)
    (hok : r.status = ZyanStatus.success) :
    r.info.map_log.length ≤ ZYREX_TRAMPOLINE_MAX_INSTRUCTION_COUNT ∧
    ∀ j < r.info.map_log.length,
      j < ZYREX_TRAMPOLINE_MAX_INSTRUCTION_COUNT := by
  subst hr
  obtain ⟨hbr, hbw, hmap⟩ := chunkInit_info_loop decode addrs chunk0 source
    address callback min_bytes_to_reloc max_bytes_to_read flags
  have hcount : (chunkInitLoop decode source min_bytes_to_reloc
      max_bytes_to_read flags).2.instructions_read ≤
      0 + (min_bytes_to_reloc - 0) :=
    relocLoop_count decode hdec flags source min_bytes_to_reloc
      max_bytes_to_read min_bytes_to_reloc _
  have hlen : (chunkInitLoop decode source min_bytes_to_reloc
      max_bytes_to_read flags).2.map_log.length + 0 =
      (chunkInitLoop decode source min_bytes_to_reloc
        max_bytes_to_read flags).2.instructions_read + 0 :=
    relocLoop_map_len decode flags source min_bytes_to_reloc
      max_bytes_to_read min_bytes_to_reloc _
  have h5a : ZYREX_TRAMPOLINE_MAX_INSTRUCTION_COUNT = 5 := rfl
  have h5b : ZYREX_SIZEOF_RELATIVE_JUMP = 5 := rfl
  rw [h5b] at hmin
  have hbound : (ZyrexTrampolineChunkInit decode addrs chunk0 source
      address callback min_bytes_to_reloc max_bytes_to_read
      flags).info.map_log.length ≤ 5 := by
    rw [hmap]; omega
  exact ⟨by rw [h5a]; exact hbound, fun j hj => by rw [h5a]; omega⟩

/-- C7 (amended) witness: the theorem applied to the concrete successful
five-`NOP` run. -/
theorem C7_map_within_bounds_for_small_reloc_witness :
    nopRun.info.map_log.length ≤ ZYREX_TRAMPOLINE_MAX_INSTRUCTION_COUNT ∧
    ∀ j < nopRun.info.map_log.length,
      j < ZYREX_TRAMPOLINE_MAX_INSTRUCTION_COUNT :=
  C7_map_within_bounds_for_small_reloc nopDecoder nopDecoder_contract
    addrs0 emptyChunk (List.replicate 5 0x90) 0x400000 0x500000 5 5
    allFlags (by decide) nopRun rfl (by decide)
